import Mathlib

/-!
# Verification of the dacx0501 DAC driver protocol core

Shallow embedding of `src/lib.rs`: the register command codec, the shadow
configuration state, the per-variant controller operations, and the alarm
decoder.  Transport effects are made explicit: each operation returns its
result, the controller state after the call, and the list of SPI bus
operations it issued.  A transport outcome (success flag for writes, an
optional 3-byte response for reads) is passed in as a parameter.
-/

namespace Dacx0501

/-- Mirrors the Rust `InternRefState` enum. -/
inductive InternRefState
  | Disable
  | Enable
deriving DecidableEq, Repr

/-- Mirrors the Rust `PowerState` enum. -/
inductive PowerState
  | On
  | Off
deriving DecidableEq, Repr

/-- Mirrors the Rust `RefDivState` enum. -/
inductive RefDivState
  | Half
  | OneX
deriving DecidableEq, Repr

/-- Mirrors the Rust `GainState` enum. -/
inductive GainState
  | TwoX
  | OneX
deriving DecidableEq, Repr

/-- Mirrors the Rust `AlarmStatus` enum. -/
inductive AlarmStatus
  | High
  | Low
deriving DecidableEq, Repr

/-- Mirrors the Rust `DacError` enum. -/
inductive DacError
  | ValueOverflow
  | SpiError
deriving DecidableEq, Repr

/-- Mirrors the Rust `Command` enum (register addresses). -/
inductive Command
  | NOOP
  | DEVID
  | SYNC
  | CONFIG
  | GAIN
  | TRIGGER
  | STATUS
  | DACDATA
deriving DecidableEq, Repr

/-- The one-byte code of each register command, mirroring `Deref for Command`. -/
def Command.code : Command → Nat
  | .NOOP => 0x00
  | .DEVID => 0x01
  | .SYNC => 0x02
  | .CONFIG => 0x03
  | .GAIN => 0x04
  | .TRIGGER => 0x05
  | .STATUS => 0x07
  | .DACDATA => 0x08

/-- Mirrors the Rust `DacConfig` struct (config register group shadow). -/
structure DacConfig where
  ref_pwdwn : InternRefState
  dac_pwdwn : PowerState
deriving DecidableEq, Repr

/-- Mirrors `#[derive(Default)] DacConfig`: both fields take their enum defaults
(`InternRefState::Enable`, `PowerState::On`). -/
def DacConfig.default : DacConfig :=
  { ref_pwdwn := InternRefState.Enable, dac_pwdwn := PowerState.On }

/-- Mirrors `DacConfig::to_array`: `matches!` casts of the two flags. -/
def DacConfig.to_array (c : DacConfig) : List Nat :=
  [if c.ref_pwdwn = InternRefState.Disable then 1 else 0,
   if c.dac_pwdwn = PowerState.Off then 1 else 0]

/-- Mirrors the Rust `GainConfig` struct (gain register group shadow). -/
structure GainConfig where
  ref_div : RefDivState
  buff_gain : GainState
deriving DecidableEq, Repr

/-- Mirrors `impl Default for GainConfig`: divider `OneX`, buffer gain `TwoX`. -/
def GainConfig.default : GainConfig :=
  { ref_div := RefDivState.OneX, buff_gain := GainState.TwoX }

/-- Mirrors `GainConfig::to_array`. -/
def GainConfig.to_array (g : GainConfig) : List Nat :=
  [if g.ref_div = RefDivState.Half then 1 else 0,
   if g.buff_gain = GainState.TwoX then 1 else 0]

/-- Mirrors the Rust `DacState` struct. -/
structure DacState where
  config : DacConfig
  gain : GainConfig
deriving DecidableEq, Repr

/-- Mirrors `#[derive(Default)] DacState`. -/
def DacState.default : DacState :=
  { config := DacConfig.default, gain := GainConfig.default }

/-- One SPI bus operation issued through the transport handle.  `write` is
`SpiDevice::write` of a full outgoing frame; `read` is `SpiDevice::read` of
`len` bytes (nothing from the buffer is transmitted); `transfer` would be a
combined write-then-read of a frame (the source never issues one). -/
inductive SpiOp
  | write (frame : List Nat)
  | read (len : Nat)
  | transfer (frame : List Nat)
deriving DecidableEq, Repr

/-- The controller state shared by `Dac80501`, `Dac70501` and `Dac60501`: the
3-byte scratch frame buffer `data` and the shadow `dac_state`.  The transport
handle itself is modelled by the per-call outcome parameters, not stored. -/
structure Dac where
  data : List Nat
  dac_state : DacState
deriving DecidableEq, Repr

/-- Mirrors the generated `new`: zeroed frame buffer, default configuration. -/
def Dac.new : Dac :=
  { data := [0, 0, 0], dac_state := DacState.default }

/-- Outcome of `self.spi.write(..).map_err(DacError::from)?; Ok(())`:
transport success gives `Ok(())`, transport failure maps to `SpiError`. -/
def spiWriteResult (spiOk : Bool) : Except DacError Unit :=
  if spiOk then Except.ok () else Except.error DacError.SpiError

/-- `u16::to_be_bytes` of a level, as the two payload bytes (big-endian). -/
def toBeBytes (level : Nat) : List Nat :=
  [level / 256 % 256, level % 256]

/-- Mirrors the bounds-checked `set_output_level` generated by the macro arm
`Dac!(Name, bits)`: the guard is `level as u32 & (1u32 << bits) > 0` — it
tests only bit `bits` — then the frame `[DACDATA, be(level)]` is built in the
buffer and written. -/
def checkedSetOutputLevel (bits : Nat) (dac : Dac) (level : Nat) (spiOk : Bool) :
    Except DacError Unit × Dac × List SpiOp :=
  if Nat.land level (1 <<< bits) > 0 then
    (Except.error DacError.ValueOverflow, dac, [])
  else
    let frame := Command.DACDATA.code :: toBeBytes level
    (spiWriteResult spiOk, { dac with data := frame }, [SpiOp.write frame])

/-- Mirrors the unchecked output write body: shared by `Dac80501`'s
`set_output_level` (macro arm `Dac!(Name)`) and by `set_output_level_unckecked`
of the bounded variants.  No bounds check; frame `[DACDATA, be(level)]`. -/
def uncheckedSetOutputLevel (dac : Dac) (level : Nat) (spiOk : Bool) :
    Except DacError Unit × Dac × List SpiOp :=
  let frame := Command.DACDATA.code :: toBeBytes level
  (spiWriteResult spiOk, { dac with data := frame }, [SpiOp.write frame])

/-- The three chip variants instantiated at the bottom of `lib.rs`. -/
inductive Variant
  | dac80501
  | dac70501
  | dac60501
deriving DecidableEq, Repr

/-- The resolution of each variant (16, 14 and 12 bits). -/
def Variant.bits : Variant → Nat
  | .dac80501 => 16
  | .dac70501 => 14
  | .dac60501 => 12

/-- Which variants the macro gives a separate `set_output_level_unckecked`
method: the arm `Dac!(Name, bits)` (used for `Dac70501` and `Dac60501`)
generates it, the arm `Dac!(Name)` (used for `Dac80501`) does not. -/
def Variant.providesUnchecked : Variant → Bool
  | .dac80501 => false
  | .dac70501 => true
  | .dac60501 => true

/-- `set_output_level` of each variant: `Dac80501` gets the unchecked body
("without any extra bounds checks"), `Dac70501` and `Dac60501` get the
bounds-checked body at their bit width. -/
def Variant.set_output_level : Variant → Dac → Nat → Bool →
    Except DacError Unit × Dac × List SpiOp
  | .dac80501 => uncheckedSetOutputLevel
  | .dac70501 => checkedSetOutputLevel 14
  | .dac60501 => checkedSetOutputLevel 12

/-- `set_output_level_unckecked` as generated per variant (identical bodies);
only meaningful for variants with `providesUnchecked = true`. -/
def Variant.set_output_level_unckecked (_v : Variant) :
    Dac → Nat → Bool → Except DacError Unit × Dac × List SpiOp :=
  uncheckedSetOutputLevel

/-- Mirrors `set_internal_reference`: assign `config.ref_pwdwn`, then write
`[CONFIG, config.to_array()]` built from the updated shadow state. -/
def set_internal_reference (dac : Dac) (intern_ref : InternRefState) (spiOk : Bool) :
    Except DacError Unit × Dac × List SpiOp :=
  let st := { dac.dac_state with
    config := { dac.dac_state.config with ref_pwdwn := intern_ref } }
  let frame := Command.CONFIG.code :: st.config.to_array
  (spiWriteResult spiOk, { data := frame, dac_state := st }, [SpiOp.write frame])

/-- Mirrors `set_power_state`: assign `config.dac_pwdwn`, then write
`[CONFIG, config.to_array()]`. -/
def set_power_state (dac : Dac) (state : PowerState) (spiOk : Bool) :
    Except DacError Unit × Dac × List SpiOp :=
  let st := { dac.dac_state with
    config := { dac.dac_state.config with dac_pwdwn := state } }
  let frame := Command.CONFIG.code :: st.config.to_array
  (spiWriteResult spiOk, { data := frame, dac_state := st }, [SpiOp.write frame])

/-- Mirrors `set_reference_divider`: assign `gain.ref_div`, then write
`[GAIN, gain.to_array()]`. -/
def set_reference_divider (dac : Dac) (ref_div : RefDivState) (spiOk : Bool) :
    Except DacError Unit × Dac × List SpiOp :=
  let st := { dac.dac_state with
    gain := { dac.dac_state.gain with ref_div := ref_div } }
  let frame := Command.GAIN.code :: st.gain.to_array
  (spiWriteResult spiOk, { data := frame, dac_state := st }, [SpiOp.write frame])

/-- Mirrors `set_output_gain`: assign `gain.buff_gain`, then write
`[GAIN, gain.to_array()]`. -/
def set_output_gain (dac : Dac) (gain : GainState) (spiOk : Bool) :
    Except DacError Unit × Dac × List SpiOp :=
  let st := { dac.dac_state with
    gain := { dac.dac_state.gain with buff_gain := gain } }
  let frame := Command.GAIN.code :: st.gain.to_array
  (spiWriteResult spiOk, { data := frame, dac_state := st }, [SpiOp.write frame])

/-- Mirrors `ref_alarm_status`: stage `[STATUS, 0, 0]` in the buffer, then call
`self.spi.read(&mut self.data)` — a read-only transaction that overwrites the
buffer with the response (the staged frame is not transmitted).  `resp` is the
transport outcome: `none` for a transport error, `some (b0, b1, b2)` for the
three received bytes.  Decode: third byte `= 1` gives `High`, else `Low`. -/
def ref_alarm_status (dac : Dac) (resp : Option (Nat × Nat × Nat)) :
    Except DacError AlarmStatus × Dac × List SpiOp :=
  let staged := [Command.STATUS.code, 0, 0]
  match resp with
  | none => (Except.error DacError.SpiError, { dac with data := staged }, [SpiOp.read 3])
  | some (b0, b1, b2) =>
    (if b2 = 1 then Except.ok AlarmStatus.High else Except.ok AlarmStatus.Low,
     { dac with data := [b0, b1, b2] }, [SpiOp.read 3])

/-- Decoder of the 2-byte config payload back into flags (inverse used to
state the round-trip property of `DacConfig.to_array`). -/
def decodeConfig : List Nat → Option DacConfig
  | [a, b] =>
    some { ref_pwdwn := if a = 1 then InternRefState.Disable else InternRefState.Enable,
           dac_pwdwn := if b = 1 then PowerState.Off else PowerState.On }
  | _ => none

/-- Decoder of the 2-byte gain payload back into flags (inverse used to
state the round-trip property of `GainConfig.to_array`). -/
def decodeGain : List Nat → Option GainConfig
  | [a, b] =>
    some { ref_div := if a = 1 then RefDivState.Half else RefDivState.OneX,
           buff_gain := if b = 1 then GainState.TwoX else GainState.OneX }
  | _ => none

/-- C1: the claim "set_output_level returns ValueOverflow iff level ≥ 2^b"
fails on the code.  The guard tests only bit `b`: on the 14-bit variant the
level 32768 = 0x8000 (bit 15 set, so 32768 ≥ 2^14) passes the check, the call
returns `Ok(())` and the frame `[0x08, 0x80, 0x00]` is written out. -/
theorem c1_bounds_check_misses_high_bits :
    2 ^ Variant.dac70501.bits ≤ 32768 ∧
    (Variant.dac70501.set_output_level Dac.new 32768 true).1 = Except.ok () ∧
    (Variant.dac70501.set_output_level Dac.new 32768 true).2.2 =
      [SpiOp.write [8, 128, 0]] :=
  ⟨by decide, rfl, rfl⟩

/-- C2: the claim that `ref_alarm_status` performs a combined write-then-read
transmitting `[0x07, 0, 0]` fails on the code.  The call issues a single
read-only SPI transaction (`SpiDevice::read`); no write or transfer operation
carries the staged frame.  The response does overwrite the 3-byte buffer. -/
theorem c2_status_is_read_only :
    (Dacx0501.ref_alarm_status Dac.new (some (0, 0, 0))).2.2 = [SpiOp.read 3] ∧
    (Dacx0501.ref_alarm_status Dac.new (some (0, 0, 0))).1 =
      Except.ok AlarmStatus.Low ∧
    (Dacx0501.ref_alarm_status Dac.new (some (0, 0, 0))).2.1.data = [0, 0, 0] :=
  ⟨rfl, rfl, rfl⟩

/-- C7: on a successful exchange `ref_alarm_status` returns `High` exactly when
the third response byte is 1; any other byte value yields `Low`.  The decode is
total. -/
theorem c7_alarm_decode (dac : Dac) (b0 b1 b2 : Nat) :
    (Dacx0501.ref_alarm_status dac (some (b0, b1, b2))).1 =
      Except.ok (if b2 = 1 then AlarmStatus.High else AlarmStatus.Low) := by
  unfold Dacx0501.ref_alarm_status
  by_cases h : b2 = 1 <;> simp [h]

/-- C8: `to_array` of the config and gain groups equals the stated flag
encodings, and decoding the emitted 2-byte payload recovers exactly the state
that produced it (the encoding round-trips, hence is injective). -/
theorem c8_serialize_roundtrip :
    (∀ c : DacConfig, c.to_array =
      [if c.ref_pwdwn = InternRefState.Disable then 1 else 0,
       if c.dac_pwdwn = PowerState.Off then 1 else 0]) ∧
    (∀ g : GainConfig, g.to_array =
      [if g.ref_div = RefDivState.Half then 1 else 0,
       if g.buff_gain = GainState.TwoX then 1 else 0]) ∧
    (∀ c : DacConfig, decodeConfig c.to_array = some c) ∧
    (∀ g : GainConfig, decodeGain g.to_array = some g) := by
  refine ⟨fun c => rfl, fun g => rfl, fun c => ?_, fun g => ?_⟩
  · obtain ⟨r, p⟩ := c
    cases r <;> cases p <;> rfl
  · obtain ⟨d, b⟩ := g
    cases d <;> cases b <;> rfl

/-- C9: a fresh controller starts with a zeroed frame buffer and the default
configuration (reference `Enable`, power `On`, divider `OneX`, gain `TwoX`),
whose serializations are `[0, 0]` and `[0, 1]`. -/
theorem c9_fresh_controller_defaults :
    Dac.new.data = [0, 0, 0] ∧
    Dac.new.dac_state.config.ref_pwdwn = InternRefState.Enable ∧
    Dac.new.dac_state.config.dac_pwdwn = PowerState.On ∧
    Dac.new.dac_state.gain.ref_div = RefDivState.OneX ∧
    Dac.new.dac_state.gain.buff_gain = GainState.TwoX ∧
    Dac.new.dac_state.config.to_array = [0, 0] ∧
    Dac.new.dac_state.gain.to_array = [0, 1] :=
  ⟨rfl, rfl, rfl, rfl, rfl, rfl, rfl⟩

/-- C3: whenever `set_output_level` returns `ValueOverflow`, no SPI operation
was issued and the controller (frame buffer and shadow configuration alike) is
unchanged — the error is detected before any transport call. -/
theorem c3_overflow_has_no_effect (v : Variant) (dac : Dac) (level : Nat)
    (spiOk : Bool)
    (h : (v.set_output_level dac level spiOk).1 =
      Except.error DacError.ValueOverflow) :
    (v.set_output_level dac level spiOk).2.1 = dac ∧
    (v.set_output_level dac level spiOk).2.2 = [] := by
  cases v <;>
    simp only [Variant.set_output_level, uncheckedSetOutputLevel,
      checkedSetOutputLevel, spiWriteResult] at h ⊢ <;>
    cases spiOk <;> simp at h ⊢ <;>
    split at h <;> simp_all

/-- Witness for C3: on the 14-bit variant, level 0x4000 trips the check; the
controller is returned unchanged with an empty SPI trace. -/
theorem c3_witness :
    (Variant.dac70501.set_output_level Dac.new 16384 true).1 =
      Except.error DacError.ValueOverflow ∧
    (Variant.dac70501.set_output_level Dac.new 16384 true).2.1 = Dac.new ∧
    (Variant.dac70501.set_output_level Dac.new 16384 true).2.2 = [] :=
  ⟨rfl,
   (c3_overflow_has_no_effect Variant.dac70501 Dac.new 16384 true rfl).1,
   (c3_overflow_has_no_effect Variant.dac70501 Dac.new 16384 true rfl).2⟩

/-- C4: each configuration setter assigns its one field and re-sends both
fields of the group from the shadow state.  From any starting controller,
`set_power_state Off` then `set_internal_reference Disable` makes the second
frame `[0x03, 1, 1]` (the first change carries forward); afterwards the shadow
config holds exactly the two values last written, the gain group is untouched,
and the emitted payload is the serialization of the in-memory state. -/
theorem c4_shadow_state_carries_forward (dac0 : Dac) (ok1 ok2 : Bool) :
    (set_internal_reference
        (set_power_state dac0 PowerState.Off ok1).2.1
        InternRefState.Disable ok2).2.2 = [SpiOp.write [3, 1, 1]] ∧
    (set_internal_reference
        (set_power_state dac0 PowerState.Off ok1).2.1
        InternRefState.Disable ok2).2.1.dac_state.config =
      { ref_pwdwn := InternRefState.Disable, dac_pwdwn := PowerState.Off } ∧
    (set_internal_reference
        (set_power_state dac0 PowerState.Off ok1).2.1
        InternRefState.Disable ok2).2.1.dac_state.gain = dac0.dac_state.gain ∧
    (set_internal_reference
        (set_power_state dac0 PowerState.Off ok1).2.1
        InternRefState.Disable ok2).2.2 =
      [SpiOp.write (Command.CONFIG.code ::
        (set_internal_reference
          (set_power_state dac0 PowerState.Off ok1).2.1
          InternRefState.Disable ok2).2.1.dac_state.config.to_array)] := by
  refine ⟨rfl, rfl, rfl, rfl⟩

/-- C5: every configuration setter commits the new field value to the shadow
state before the transport write; when the write fails the call returns
`SpiError` while the in-memory state already holds the new value. -/
theorem c5_failed_write_leaves_state_ahead (dac : Dac) (r : InternRefState)
    (p : PowerState) (d : RefDivState) (g : GainState) :
    (set_internal_reference dac r false).1 = Except.error DacError.SpiError ∧
    (set_internal_reference dac r false).2.1.dac_state.config.ref_pwdwn = r ∧
    (set_power_state dac p false).1 = Except.error DacError.SpiError ∧
    (set_power_state dac p false).2.1.dac_state.config.dac_pwdwn = p ∧
    (set_reference_divider dac d false).1 = Except.error DacError.SpiError ∧
    (set_reference_divider dac d false).2.1.dac_state.gain.ref_div = d ∧
    (set_output_gain dac g false).1 = Except.error DacError.SpiError ∧
    (set_output_gain dac g false).2.1.dac_state.gain.buff_gain = g :=
  ⟨rfl, rfl, rfl, rfl, rfl, rfl, rfl, rfl⟩

/-- C6 counterexample: the claim puts `set_output_level_unckecked` on the
public surface of every variant, but the macro arm that builds the 16-bit
`Dac80501` does not generate it. -/
theorem c6_counterexample :
    Variant.providesUnchecked Variant.dac80501 = false :=
  rfl

/-- C6 (amended): on the variants that provide it (14-bit and 12-bit), the
unchecked setter never returns `ValueOverflow` for any u16 level and always
issues exactly one write of the frame `[0x08, high_byte, low_byte]`. -/
theorem c6_unchecked_never_overflows (v : Variant)
    (_hv : v.providesUnchecked = true) (dac : Dac) (level : Nat)
    (spiOk : Bool) (hlevel : level < 2 ^ 16) :
    (v.set_output_level_unckecked dac level spiOk).1 ≠
      Except.error DacError.ValueOverflow ∧
    (v.set_output_level_unckecked dac level spiOk).2.2 =
      [SpiOp.write [8, level / 256, level % 256]] := by
  constructor
  · simp only [Variant.set_output_level_unckecked, uncheckedSetOutputLevel,
      spiWriteResult]
    cases spiOk <;> simp
  · simp only [Variant.set_output_level_unckecked, uncheckedSetOutputLevel,
      toBeBytes, Command.code]
    have hdiv : level / 256 < 256 := by omega
    simp [Nat.mod_eq_of_lt hdiv]

/-- Witness for C6: the 14-bit variant provides the unchecked setter; at the
out-of-range level 40000 it still emits `[0x08, 0x9C, 0x40]` and does not
return `ValueOverflow`. -/
theorem c6_witness :
    Variant.providesUnchecked Variant.dac70501 = true ∧
    40000 < 2 ^ 16 ∧
    ((Variant.dac70501.set_output_level_unckecked Dac.new 40000 true).1 ≠
        Except.error DacError.ValueOverflow ∧
      (Variant.dac70501.set_output_level_unckecked Dac.new 40000 true).2.2 =
        [SpiOp.write [8, 156, 64]]) :=
  ⟨rfl, by decide,
   c6_unchecked_never_overflows Variant.dac70501 rfl Dac.new 40000 true
     (by decide)⟩

/-- C10: frame effects on the shadow configuration.  Each setter replaces
exactly its own field; `set_output_level`, the unchecked setter and
`ref_alarm_status` leave the whole configuration unchanged, for every variant
and every transport outcome. -/
theorem c10_frame_effects :
    (∀ (dac : Dac) (r : InternRefState) (ok : Bool),
      (set_internal_reference dac r ok).2.1.dac_state =
        { dac.dac_state with
          config := { dac.dac_state.config with ref_pwdwn := r } }) ∧
    (∀ (dac : Dac) (p : PowerState) (ok : Bool),
      (set_power_state dac p ok).2.1.dac_state =
        { dac.dac_state with
          config := { dac.dac_state.config with dac_pwdwn := p } }) ∧
    (∀ (dac : Dac) (d : RefDivState) (ok : Bool),
      (set_reference_divider dac d ok).2.1.dac_state =
        { dac.dac_state with
          gain := { dac.dac_state.gain with ref_div := d } }) ∧
    (∀ (dac : Dac) (g : GainState) (ok : Bool),
      (set_output_gain dac g ok).2.1.dac_state =
        { dac.dac_state with
          gain := { dac.dac_state.gain with buff_gain := g } }) ∧
    (∀ (v : Variant) (dac : Dac) (level : Nat) (ok : Bool),
      (v.set_output_level dac level ok).2.1.dac_state = dac.dac_state) ∧
    (∀ (v : Variant) (dac : Dac) (level : Nat) (ok : Bool),
      (v.set_output_level_unckecked dac level ok).2.1.dac_state =
        dac.dac_state) ∧
    (∀ (dac : Dac) (resp : Option (Nat × Nat × Nat)),
      (Dacx0501.ref_alarm_status dac resp).2.1.dac_state = dac.dac_state) := by
  refine ⟨fun dac r ok => rfl, fun dac p ok => rfl, fun dac d ok => rfl,
    fun dac g ok => rfl, ?_, fun v dac level ok => rfl, ?_⟩
  · intro v dac level ok
    cases v <;>
      simp only [Variant.set_output_level, uncheckedSetOutputLevel,
        checkedSetOutputLevel] <;>
      split <;> rfl
  · intro dac resp
    rcases resp with _ | ⟨b0, b1, b2⟩
    · rfl
    · simp only [Dacx0501.ref_alarm_status]

end Dacx0501
